import Mathlib

/-
Verification of the DisplaxTouch protocol engine (src/DisplaxTouch.cpp /
DisplaxTouch.h): a streaming binary-protocol decoder for a multi-touch
sensor.  The engine state (connection state, receive buffer, decoded
touches, frame dimensions, timeout bookkeeping) is embedded as a Lean
structure; each C++ member function becomes a Lean function on that
structure.  Bytes are modelled as Nat (uint8_t values), buffers as List
Nat, machine-integer truncation is written explicitly where it matters.
Info-level log lines are pure text formatting and carry no state; only
warning diagnostics and state-change notifications are modelled, as an
ordered event list.
-/

namespace DisplaxTouch

/-- Connection / synchronization state (enum TouchState in DisplaxTouch.h). -/
inductive TouchState where
  | DISCONNECTED
  | INITIALIZING
  | INITIALIZATION_FAILED
  | CONNECTED
  | SYNCHRONIZING
  | SYNCHRONIZED
deriving DecidableEq, Repr

/-- One decoded touch point (struct TouchPoint in DisplaxTouch.h). -/
structure TouchPoint where
  id : Nat
  x : Nat
  y : Nat
  width : Nat
  height : Nat
  pressure : Nat
  frameWidth : Nat
  frameHeight : Nat
  active : Bool
deriving DecidableEq, Repr

/-- Observable diagnostics: the warn() call sites of the source and the
state-change notification fired by setState().  Info-level log() lines are
not modelled (pure formatting, no state). -/
inductive Diag where
  | warnInitializationTimeout
  | warnRxBufferOverflow
  | warnUnknownReport
  | warnInvalidTouchFrameHeader
  | warnUnexpectedPayloadSize
  | warnCrcMismatch
  | stateChange (newState previousState : TouchState)
deriving DecidableEq, Repr

-- Constants from DisplaxTouch.h
def RX_BUFFER_SIZE : Nat := 2048
def TOUCH_REPORT_SIZE : Nat := 72
def TOUCH_CRC_SIZE : Nat := 4
def GET_HID_DESCRIPTION_SIZE : Nat := 32
def GET_HID_REPORT_DESCRIPTION_SIZE : Nat := 708
def GET_FRAME_SIZE_SIZE : Nat := 6
def TOUCH_PAYLOAD_SIZE : Nat := 64
def MAX_TOUCH_CONTACTS : Nat := 6
def MAX_LISTENERS : Nat := 4
def INITIALIZATION_TIMEOUT_MS : Nat := 1000

/-- The engine state: the mutable members of class DisplaxTouch that the
protocol code reads and writes.  touches models the visible prefix
touches[0 .. touchCount), so touchCount = touches.length.  The listener
registry is modelled separately (ListenerRegistry below) since the engine
code never reads it except to fan out notifications. -/
structure Engine where
  state : TouchState
  rxBuffer : List Nat
  touches : List TouchPoint
  scanTime : Nat
  frameWidth : Nat
  frameHeight : Nat
  initializingStartTimeMs : Nat
  events : List Diag
deriving Repr

/-- State after the constructor: all defaults from DisplaxTouch.h. -/
def initialEngine : Engine :=
  { state := .DISCONNECTED
    rxBuffer := []
    touches := []
    scanTime := 0
    frameWidth := 1050
    frameHeight := 650
    initializingStartTimeMs := 0
    events := [] }

/-- Little-endian 16-bit read data[i] | (data[i+1] << 8), the pattern used
throughout the source for 2-byte fields. -/
def le16 (data : List Nat) (i : Nat) : Nat :=
  data.getD i 0 ||| (data.getD (i + 1) 0 <<< 8)

/-- setState: change state only if different, appending the state-change
notification event (stateChangeCallback(newState, previousState)). -/
def setState (e : Engine) (newState : TouchState) : Engine :=
  if newState = e.state then e
  else { e with state := newState
                events := e.events ++ [.stateChange newState e.state] }

/-- consumeBuffer: clear everything when consuming all or more bytes than
available, otherwise shift the remaining bytes to the front. -/
def consumeBuffer (buf : List Nat) (bytesToConsume : Nat) : List Nat :=
  if bytesToConsume ≥ buf.length then []
  else buf.drop bytesToConsume

/-- The 4-byte frame header pattern 04 00 40 00 checked at a position:
data[p] == 0x04 && data[p+1] == 0x00 && data[p+2] == 0x40 && data[p+3] == 0x00.
Phrased on the suffix so that a match requires 4 actual bytes. -/
def markerAt (data : List Nat) (position : Nat) : Prop :=
  (data.drop position).take 4 = [0x04, 0x00, 0x40, 0x00]

instance (data : List Nat) (position : Nat) : Decidable (markerAt data position) := by
  unfold markerAt; infer_instance

/-- Linear scan of findFrameHeader: position of the first occurrence of the
4-byte header pattern, none if absent.  A match needs 4 real bytes, so the
scan never runs past length - 4. -/
def findMarker : List Nat → Option Nat
  | [] => none
  | b :: rest =>
    if b = 0x04 ∧ rest.take 3 = [0x00, 0x40, 0x00] then some 0
    else
      match findMarker rest with
      | some k => some (k + 1)
      | none => none

/-- findFrameHeader: -1 when fewer than 4 bytes, else first header offset
or -1 when the pattern does not occur. -/
def findFrameHeader (data : List Nat) : Int :=
  if data.length < 4 then -1
  else
    match findMarker data with
    | some position => (position : Int)
    | none => -1

/-- isValidTouchFrame: at least TOUCH_REPORT_SIZE bytes and the header
pattern 04 00 40 00 at offset 0. -/
def isValidTouchFrame (data : List Nat) : Bool :=
  if data.length < TOUCH_REPORT_SIZE then false
  else decide (markerAt data 0)

/-- synchronize: with at least 4 bytes buffered, look for the frame header;
discard the bytes before it and become SYNCHRONIZED, or discard the whole
buffer and stay put when it is absent. -/
def synchronize (e : Engine) : Engine :=
  if e.rxBuffer.length < 4 then e
  else
    let frameHeaderPosition := findFrameHeader e.rxBuffer
    if frameHeaderPosition > 0 then
      setState { e with rxBuffer := consumeBuffer e.rxBuffer frameHeaderPosition.toNat }
        .SYNCHRONIZED
    else if frameHeaderPosition = 0 then
      setState e .SYNCHRONIZED
    else
      { e with rxBuffer := consumeBuffer e.rxBuffer e.rxBuffer.length }

-- CRC32 lookup table (Ethernet polynomial 0x04C11DB7), nibble-indexed
def CRC32_TABLE : List Nat :=
  [0x00000000, 0x04C11DB7, 0x09823B6E, 0x0D4326D9,
   0x130476DC, 0x17C56B6B, 0x1A864DB2, 0x1E475005,
   0x2608EDB8, 0x22C9F00F, 0x2F8AD6D6, 0x2B4BCB61,
   0x350C9B64, 0x31CD86D3, 0x3C8EA00A, 0x384FBDBD]

/-- One table-driven reduction step crc = (crc << 4) ^ CRC32_TABLE[crc >> 28]
on a uint32 value (shift truncates mod 2^32). -/
def crcNibbleStep (crc : Nat) : Nat :=
  ((crc <<< 4) % 2 ^ 32) ^^^ CRC32_TABLE.getD (crc >>> 28) 0

/-- calculateCRC32: initial value all-ones, 4-byte little-endian words XORed
into the running CRC, eight nibble reduction steps per word. -/
def calculateCRC32 (data : List Nat) (length : Nat) : Nat :=
  let wordCount := length / 4
  (List.range wordCount).foldl
    (fun crc wordIndex =>
      let byteOffset := wordIndex * 4
      let word := data.getD byteOffset 0 |||
        (data.getD (byteOffset + 1) 0 <<< 8) |||
        (data.getD (byteOffset + 2) 0 <<< 16) |||
        (data.getD (byteOffset + 3) 0 <<< 24)
      crcNibbleStep (crcNibbleStep (crcNibbleStep (crcNibbleStep
        (crcNibbleStep (crcNibbleStep (crcNibbleStep (crcNibbleStep
          (crc ^^^ word))))))))) 0xFFFFFFFF

/-- verifyCRC: CRC32 over header + payload (68 bytes) must equal the stored
little-endian CRC at frame bytes 68..71. -/
def verifyCRC (frame : List Nat) : Bool :=
  let calculatedCrc := calculateCRC32 frame (TOUCH_REPORT_SIZE - TOUCH_CRC_SIZE)
  let storedCrc := frame.getD 68 0 ||| (frame.getD 69 0 <<< 8) |||
    (frame.getD 70 0 <<< 16) ||| (frame.getD 71 0 <<< 24)
  calculatedCrc == storedCrc

/-- One contact slot decoded from touchData = payload + 1 + touchIndex * 10:
byte 1 = id, bytes 2-3 = x, bytes 4-5 = y, byte 6 = width, byte 7 = height,
bytes 8-9 = pressure; stamped with the frame dimensions in effect. -/
def mkTouchPoint (payload : List Nat) (touchIndex fw fh : Nat) : TouchPoint :=
  let touchData := payload.drop (1 + touchIndex * 10)
  { id := touchData.getD 1 0
    x := le16 touchData 2
    y := le16 touchData 4
    width := touchData.getD 6 0
    height := touchData.getD 7 0
    pressure := le16 touchData 8
    frameWidth := fw
    frameHeight := fh
    active := true }

/-- The parse loop of processTouchReport: touchCount = 0, then for
touchIndex < reportedTouchCount && touchIndex < MAX_TOUCH_CONTACTS, skip
slots whose status byte is 0 and append the decoded active slots in order. -/
def parseTouches (payload : List Nat) (reportedTouchCount fw fh : Nat) :
    List TouchPoint :=
  (List.range (min reportedTouchCount MAX_TOUCH_CONTACTS)).foldl
    (fun acc touchIndex =>
      if (payload.drop (1 + touchIndex * 10)).getD 0 0 = 0 then acc
      else acc ++ [mkTouchPoint payload touchIndex fw fh]) []

/-- processTouchReport: three hard gates (header pattern, payload-size field
= 64, CRC); on any failure warn, consume exactly one byte and force
SYNCHRONIZING; on success decode count / scan time / contact slots, replace
the touch set, and consume the whole 72-byte frame. -/
def processTouchReport (e : Engine) : Engine :=
  let data := e.rxBuffer
  if isValidTouchFrame data = false then
    setState { e with rxBuffer := consumeBuffer data 1
                      events := e.events ++ [.warnInvalidTouchFrameHeader] }
      .SYNCHRONIZING
  else
    let payloadSize := le16 data 2
    if payloadSize ≠ TOUCH_PAYLOAD_SIZE then
      setState { e with rxBuffer := consumeBuffer data 1
                        events := e.events ++ [.warnUnexpectedPayloadSize] }
        .SYNCHRONIZING
    else if verifyCRC data = false then
      setState { e with rxBuffer := consumeBuffer data 1
                        events := e.events ++ [.warnCrcMismatch] }
        .SYNCHRONIZING
    else
      let payload := data.drop 4
      let reportedTouchCount := payload.getD 61 0
      { e with
          scanTime := le16 payload 62
          touches := parseTouches payload reportedTouchCount e.frameWidth e.frameHeight
          rxBuffer := consumeBuffer data TOUCH_REPORT_SIZE }

/-- processGetFrameSize: unconditionally store the width and height from
response bytes 2-3 and 4-5, consume the 6-byte response (the follow-up
sendDisableUsbReporting only writes to the transport). -/
def processGetFrameSize (e : Engine) : Engine :=
  let receivedWidth := le16 e.rxBuffer 2
  let receivedHeight := le16 e.rxBuffer 4
  { e with frameWidth := receivedWidth
           frameHeight := receivedHeight
           rxBuffer := consumeBuffer e.rxBuffer GET_FRAME_SIZE_SIZE }

/-- processResetResponse: consume the 2-byte response, become CONNECTED,
clear the timeout tracking (the follow-up sendGetFrameSize only writes to
the transport). -/
def processResetResponse (e : Engine) : Engine :=
  let e1 := setState { e with rxBuffer := consumeBuffer e.rxBuffer 2 } .CONNECTED
  { e1 with initializingStartTimeMs := 0 }

/-- processEnableReporting: consume the 2-byte response and become
SYNCHRONIZED. -/
def processEnableReporting (e : Engine) : Engine :=
  setState { e with rxBuffer := consumeBuffer e.rxBuffer 2 } .SYNCHRONIZED

/-- processDisableReporting: consume the 2-byte response. -/
def processDisableReporting (e : Engine) : Engine :=
  { e with rxBuffer := consumeBuffer e.rxBuffer 2 }

/-- processDisableUsbReporting: consume the 2-byte response (the follow-up
sendEnableReporting only writes to the transport). -/
def processDisableUsbReporting (e : Engine) : Engine :=
  { e with rxBuffer := consumeBuffer e.rxBuffer 2 }

/-- processEnableUsbReporting: consume the 2-byte response. -/
def processEnableUsbReporting (e : Engine) : Engine :=
  { e with rxBuffer := consumeBuffer e.rxBuffer 2 }

/-- processGetHidDescriptor: consume the 32-byte response. -/
def processGetHidDescriptor (e : Engine) : Engine :=
  { e with rxBuffer := consumeBuffer e.rxBuffer GET_HID_DESCRIPTION_SIZE }

/-- processGetHidReportDescriptor: consume the 708-byte response. -/
def processGetHidReportDescriptor (e : Engine) : Engine :=
  { e with rxBuffer := consumeBuffer e.rxBuffer GET_HID_REPORT_DESCRIPTION_SIZE }

/-- processStreamData: read the little-endian 16-bit report id from the
first two buffered bytes and dispatch in source order; an unknown id with
at least a full touch frame buffered is desynchronization evidence. -/
def processStreamData (e : Engine) : Engine :=
  let data := e.rxBuffer
  let reportId := le16 data 0
  if reportId = 0x0001 ∧ data.length ≥ GET_HID_DESCRIPTION_SIZE then
    processGetHidDescriptor e
  else if reportId = 0x0002 ∧ data.length ≥ GET_HID_REPORT_DESCRIPTION_SIZE then
    processGetHidReportDescriptor e
  else if reportId = 0x0003 ∧ data.length ≥ GET_FRAME_SIZE_SIZE then
    processGetFrameSize e
  else if reportId = 0x0004 ∧ data.length ≥ TOUCH_REPORT_SIZE then
    processTouchReport e
  else if reportId = 0x0005 then
    processEnableReporting e
  else if reportId = 0x0006 then
    processDisableReporting e
  else if reportId = 0x226E then
    processResetResponse e
  else if reportId = 0xFF00 then
    processDisableUsbReporting e
  else if reportId = 0xFF01 then
    processEnableUsbReporting e
  else if data.length ≥ TOUCH_REPORT_SIZE then
    setState { e with events := e.events ++ [.warnUnknownReport] } .SYNCHRONIZING
  else
    e

/-- readStreamData: batch-read the available transport bytes while the
buffer is below capacity, then run one handling pass: overflow protection
(full discard, warn, force SYNCHRONIZING), wait when fewer than 2 bytes,
else synchronize in SYNCHRONIZING and dispatch by report id otherwise.
incoming models the bytes currently available on the transport; bytes not
taken stay on the transport for a later call. -/
def readStreamData (e : Engine) (incoming : List Nat) : Engine :=
  let taken := incoming.take (RX_BUFFER_SIZE - e.rxBuffer.length)
  let e1 : Engine := { e with rxBuffer := e.rxBuffer ++ taken }
  if e1.rxBuffer.length ≥ RX_BUFFER_SIZE then
    setState { e1 with rxBuffer := []
                       events := e1.events ++ [.warnRxBufferOverflow] }
      .SYNCHRONIZING
  else if e1.rxBuffer.length < 2 then
    e1
  else
    match e1.state with
    | .SYNCHRONIZING => synchronize e1
    | _ => processStreamData e1

/-- Wrapping unsigned-long subtraction currentMs - initializingStartTimeMs
(millis() values are 32-bit). -/
def wrapSub32 (a b : Nat) : Nat :=
  (a % 2 ^ 32 + (2 ^ 32 - b % 2 ^ 32)) % 2 ^ 32

/-- loop: timeout check (only while INITIALIZING with a nonzero recorded
start time), then read and process stream data.  currentMs is the millis()
reading for this call, incoming the bytes available on the transport. -/
def loop (e : Engine) (currentMs : Nat) (incoming : List Nat) : Engine :=
  let e1 :=
    if e.state = .INITIALIZING ∧ e.initializingStartTimeMs > 0 then
      if wrapSub32 currentMs e.initializingStartTimeMs ≥ INITIALIZATION_TIMEOUT_MS then
        let timedOut :=
          setState { e with events := e.events ++ [.warnInitializationTimeout] }
            .INITIALIZATION_FAILED
        { timedOut with initializingStartTimeMs := 0 }
      else e
    else e
  readStreamData e1 incoming

/-- begin: record the millis() reading for timeout detection, flush the
transport (an external effect), and sendReset, which enters INITIALIZING
and writes the reset command to the transport. -/
def begin (e : Engine) (nowMs : Nat) : Engine :=
  setState { e with initializingStartTimeMs := nowMs } .INITIALIZING

/-- setFrameSize: manual frame-dimension override. -/
def setFrameSize (e : Engine) (width height : Nat) : Engine :=
  { e with frameWidth := width, frameHeight := height }

/-- clearTouches: touchCount = 0. -/
def clearTouches (e : Engine) : Engine :=
  { e with touches := [] }

/-- getTouchCount accessor. -/
def getTouchCount (e : Engine) : Nat :=
  e.touches.length

/-- getFrameWidth accessor. -/
def getFrameWidth (e : Engine) : Nat :=
  e.frameWidth

/-- getFrameHeight accessor. -/
def getFrameHeight (e : Engine) : Nat :=
  e.frameHeight

/-- getScanTime accessor. -/
def getScanTime (e : Engine) : Nat :=
  e.scanTime



def testFrame : List Nat :=
  [0x04, 0x00, 0x40, 0x00,
   1, 1, 2, 244, 1, 88, 2, 7, 8, 232, 3, 0, 0, 0, 0, 0,
   0, 0, 0, 0, 0, 0, 0, 0, 0, 0, 0, 0, 0, 0, 0, 0,
   0, 0, 0, 0, 0, 0, 0, 0, 0, 0, 0, 0, 0, 0, 0, 0,
   0, 0, 0, 0, 0, 0, 0, 0, 0, 0, 0, 0, 0, 1, 52, 18,
   107, 205, 35, 87]

/-- The touch-listener registry: the parallel arrays listeners[] /
listenerIds[] (paired, in array order) plus nextListenerId.  CB is the
callback type (std::function values are opaque to the registry logic). -/
structure ListenerRegistry (CB : Type) where
  entries : List (Int × CB)
  nextListenerId : Int

/-- addTouchListener: reject when the callback is null or MAX_LISTENERS
already registered; else assign id nextListenerId, append the pair, and
bump nextListenerId. -/
def addTouchListener {CB : Type} (r : ListenerRegistry CB)
    (callback : Option CB) : ListenerRegistry CB × Int :=
  match callback with
  | none => (r, -1)
  | some cb =>
    if MAX_LISTENERS ≤ r.entries.length then (r, -1)
    else ({ entries := r.entries ++ [(r.nextListenerId, cb)]
            nextListenerId := r.nextListenerId + 1 }, r.nextListenerId)

/-- The removal scan of removeTouchListener: find the first entry whose id
matches, drop it and shift the remaining entries down; none when the id is
not registered. -/
def removeFirstById {CB : Type} :
    List (Int × CB) → Int → Option (List (Int × CB))
  | [], _ => none
  | p :: rest, listenerId =>
    if p.1 = listenerId then some rest
    else (removeFirstById rest listenerId).map (fun es => p :: es)

/-- removeTouchListener: true iff the id was found (and its entry
removed). -/
def removeTouchListener {CB : Type} (r : ListenerRegistry CB)
    (listenerId : Int) : ListenerRegistry CB × Bool :=
  match removeFirstById r.entries listenerId with
  | some es => ({ r with entries := es }, true)
  | none => (r, false)

/-- Registry invariant: ids strictly increase along the array, every
stored id is nonnegative and below nextListenerId, and nextListenerId is
nonnegative.  Holds for the initial empty registry and is preserved by add
and remove. -/
def ListenerInv {CB : Type} (r : ListenerRegistry CB) : Prop :=
  (r.entries.map Prod.fst).Pairwise (· < ·) ∧
  (∀ p ∈ r.entries, 0 ≤ p.1 ∧ p.1 < r.nextListenerId) ∧
  0 ≤ r.nextListenerId

-- Helper lemmas about setState and consumeBuffer

lemma setState_state (e : Engine) (s : TouchState) : (setState e s).state = s := by
  unfold setState
  split
  · next h => exact h.symm
  · rfl

lemma setState_rxBuffer (e : Engine) (s : TouchState) :
    (setState e s).rxBuffer = e.rxBuffer := by
  unfold setState; split <;> rfl

lemma setState_touches (e : Engine) (s : TouchState) :
    (setState e s).touches = e.touches := by
  unfold setState; split <;> rfl

lemma setState_scanTime (e : Engine) (s : TouchState) :
    (setState e s).scanTime = e.scanTime := by
  unfold setState; split <;> rfl

lemma setState_frameWidth (e : Engine) (s : TouchState) :
    (setState e s).frameWidth = e.frameWidth := by
  unfold setState; split <;> rfl

lemma setState_frameHeight (e : Engine) (s : TouchState) :
    (setState e s).frameHeight = e.frameHeight := by
  unfold setState; split <;> rfl

lemma setState_initMs (e : Engine) (s : TouchState) :
    (setState e s).initializingStartTimeMs = e.initializingStartTimeMs := by
  unfold setState; split <;> rfl

lemma mem_setState_events (e : Engine) (s : TouchState) (d : Diag)
    (h : d ∈ e.events) : d ∈ (setState e s).events := by
  unfold setState; split
  · exact h
  · simp only [List.mem_append]; exact Or.inl h

lemma consumeBuffer_eq_drop (buf : List Nat) (n : Nat) :
    consumeBuffer buf n = buf.drop n := by
  unfold consumeBuffer
  split
  · next h => exact (List.drop_eq_nil_of_le h).symm
  · rfl

/-- C7: consuming n bytes from a buffer of length old_len leaves a buffer of
length max(0, old_len - n) whose contents are exactly the original buffer's
suffix starting at index n; consuming at least the whole length empties it. -/
theorem C7_consumeBuffer_suffix (buf : List Nat) (n : Nat) :
    ((consumeBuffer buf n).length : Int) = max 0 ((buf.length : Int) - (n : Int)) ∧
    consumeBuffer buf n = buf.drop n ∧
    (buf.length ≤ n → consumeBuffer buf n = []) := by
  refine ⟨?_, consumeBuffer_eq_drop buf n, ?_⟩
  · rw [consumeBuffer_eq_drop, List.length_drop]
    omega
  · intro h
    rw [consumeBuffer_eq_drop]
    exact List.drop_eq_nil_of_le h

/-- C7 witness: concrete instances of the consume property. -/
theorem C7_witness :
    consumeBuffer [1, 2, 3] 5 = [] ∧
    consumeBuffer [1, 2, 3, 4] 2 = [3, 4] := by
  exact ⟨(C7_consumeBuffer_suffix [1, 2, 3] 5).2.2 (by decide),
    (C7_consumeBuffer_suffix [1, 2, 3, 4] 2).2.1.trans (by decide)⟩

-- findMarker lemmas: the scan returns the first marker position.

lemma markerAt_nil (j : Nat) : ¬ markerAt [] j := by
  unfold markerAt
  simp

lemma markerAt_cons_zero (b : Nat) (rest : List Nat) :
    markerAt (b :: rest) 0 ↔ (b = 0x04 ∧ rest.take 3 = [0x00, 0x40, 0x00]) := by
  unfold markerAt
  simp [List.take_succ_cons]

lemma markerAt_cons_succ (b : Nat) (rest : List Nat) (j : Nat) :
    markerAt (b :: rest) (j + 1) ↔ markerAt rest j := by
  unfold markerAt
  simp [List.drop_succ_cons]

lemma findMarker_some_first (data : List Nat) (k : Nat)
    (h : findMarker data = some k) :
    markerAt data k ∧ ∀ j, j < k → ¬ markerAt data j := by
  induction data generalizing k with
  | nil => simp [findMarker] at h
  | cons b rest ih =>
    unfold findMarker at h
    split at h
    · next hcond =>
      obtain rfl : k = 0 := by simpa using h.symm
      exact ⟨(markerAt_cons_zero b rest).mpr hcond, by omega⟩
    · next hcond =>
      cases hfm : findMarker rest with
      | none => rw [hfm] at h; simp at h
      | some m =>
        rw [hfm] at h
        simp at h
        obtain rfl : k = m + 1 := h.symm
        obtain ⟨hm, hmin⟩ := ih m hfm
        refine ⟨(markerAt_cons_succ b rest m).mpr hm, ?_⟩
        intro j hj
        cases j with
        | zero => rw [markerAt_cons_zero]; exact hcond
        | succ j =>
          rw [markerAt_cons_succ]
          exact hmin j (by omega)

lemma findMarker_none_iff (data : List Nat) :
    findMarker data = none ↔ ∀ j, ¬ markerAt data j := by
  induction data with
  | nil =>
    simp [findMarker, markerAt_nil]
  | cons b rest ih =>
    unfold findMarker
    constructor
    · intro h j
      split at h
      · exact absurd h (by simp)
      · next hcond =>
        cases j with
        | zero => rw [markerAt_cons_zero]; exact hcond
        | succ j =>
          rw [markerAt_cons_succ]
          revert h
          cases hfm : findMarker rest with
          | some k => intro h; exact absurd h (by simp)
          | none => intro _; exact (ih.mp hfm) j
    · intro h
      split
      · next hcond => exact absurd ((markerAt_cons_zero b rest).mpr hcond) (h 0)
      · next hcond =>
        cases hfm : findMarker rest with
        | some k =>
          exact absurd ((markerAt_cons_succ b rest k).mpr
            (findMarker_some_first rest k hfm).1) (h (k + 1))
        | none => rfl

lemma findMarker_eq_some_of (data : List Nat) (k : Nat)
    (h : markerAt data k) (hmin : ∀ j, j < k → ¬ markerAt data j) :
    findMarker data = some k := by
  cases hfm : findMarker data with
  | none => exact absurd h ((findMarker_none_iff data).mp hfm k)
  | some m =>
    obtain ⟨hm, hminm⟩ := findMarker_some_first data m hfm
    rcases Nat.lt_trichotomy m k with hlt | heq | hgt
    · exact absurd hm (hmin m hlt)
    · rw [heq]
    · exact absurd h (hminm k hgt)

lemma markerAt_length_le (data : List Nat) (k : Nat) (h : markerAt data k) :
    k + 4 ≤ data.length := by
  unfold markerAt at h
  have hlen : ((data.drop k).take 4).length = 4 := by rw [h]; rfl
  simp [List.length_take, List.length_drop] at hlen
  omega


/-- C3: the resynchronization procedure run in state Synchronizing on a
buffer of length L: L < 4 changes nothing; marker 04 00 40 00 first at
offset 0 gives Synchronized with the buffer unchanged; first occurrence at
offset k > 0 discards exactly the k leading bytes and gives Synchronized;
no occurrence discards the entire buffer and the state stays
Synchronizing. -/
theorem C3_synchronize (e : Engine) (hs : e.state = .SYNCHRONIZING) :
    (e.rxBuffer.length < 4 → synchronize e = e) ∧
    (markerAt e.rxBuffer 0 →
       (synchronize e).state = .SYNCHRONIZED ∧
       (synchronize e).rxBuffer = e.rxBuffer) ∧
    (∀ k, 0 < k → markerAt e.rxBuffer k →
       (∀ j, j < k → ¬ markerAt e.rxBuffer j) →
       (synchronize e).state = .SYNCHRONIZED ∧
       (synchronize e).rxBuffer = e.rxBuffer.drop k) ∧
    (4 ≤ e.rxBuffer.length → (∀ j, ¬ markerAt e.rxBuffer j) →
       (synchronize e).state = .SYNCHRONIZING ∧
       (synchronize e).rxBuffer = []) := by
  refine ⟨?_, ?_, ?_, ?_⟩
  · intro h
    unfold synchronize
    rw [if_pos h]
  · intro h
    have hlen : 4 ≤ e.rxBuffer.length := by
      have := markerAt_length_le e.rxBuffer 0 h
      omega
    have hff : findFrameHeader e.rxBuffer = (0 : Int) := by
      unfold findFrameHeader
      rw [if_neg (by omega), findMarker_eq_some_of e.rxBuffer 0 h (by omega)]
      rfl
    unfold synchronize
    rw [if_neg (by omega)]
    simp only [hff]
    norm_num
    exact ⟨setState_state _ _, setState_rxBuffer _ _⟩
  · intro k hk h hmin
    have hlen : 4 ≤ e.rxBuffer.length := by
      have := markerAt_length_le e.rxBuffer k h
      omega
    have hff : findFrameHeader e.rxBuffer = (k : Int) := by
      unfold findFrameHeader
      rw [if_neg (by omega), findMarker_eq_some_of e.rxBuffer k h hmin]
    unfold synchronize
    rw [if_neg (by omega)]
    simp only [hff]
    rw [if_pos (by exact_mod_cast hk)]
    rw [setState_state, setState_rxBuffer]
    refine ⟨rfl, ?_⟩
    simp [consumeBuffer_eq_drop]
  · intro hlen hnone
    have hff : findFrameHeader e.rxBuffer = (-1 : Int) := by
      unfold findFrameHeader
      rw [if_neg (by omega), (findMarker_none_iff e.rxBuffer).mpr hnone]
    unfold synchronize
    rw [if_neg (by omega)]
    simp only [hff]
    norm_num
    rw [consumeBuffer_eq_drop]
    simp [hs]

/-- C3 witness: a concrete Synchronizing engine whose buffer holds two
garbage bytes before the marker: both are discarded and the engine becomes
Synchronized. -/
theorem C3_witness :
    (synchronize { initialEngine with
        state := .SYNCHRONIZING
        rxBuffer := [9, 9, 0x04, 0x00, 0x40, 0x00, 5] }).state = .SYNCHRONIZED ∧
    (synchronize { initialEngine with
        state := .SYNCHRONIZING
        rxBuffer := [9, 9, 0x04, 0x00, 0x40, 0x00, 5] }).rxBuffer =
      [0x04, 0x00, 0x40, 0x00, 5] := by
  have h := (C3_synchronize { initialEngine with
      state := .SYNCHRONIZING
      rxBuffer := [9, 9, 0x04, 0x00, 0x40, 0x00, 5] } rfl).2.2.1 2
    (by decide) (by decide) (by decide)
  exact ⟨h.1, h.2.trans (by decide)⟩


lemma take_two_shape (l : List Nat) (a b : Nat) (h : l.take 2 = [a, b]) :
    ∃ t, l = a :: b :: t := by
  match l with
  | [] => simp at h
  | [x] => simp at h
  | x :: y :: t =>
    simp [List.take_succ_cons] at h
    exact ⟨t, by rw [h.1, h.2]⟩

/-- C2: a buffer whose first two bytes are the touch-report identifier
04 00 and that holds at least 72 bytes dispatches to touch-report handling;
if any of the three gates (header pattern, payload-size field = 64, CRC)
fails, exactly one leading byte is consumed, the rest of the buffer is left
intact in order, and the state becomes Synchronizing. -/
theorem C2_touchReportFailure (e : Engine)
    (h2 : e.rxBuffer.take 2 = [0x04, 0x00])
    (hlen : TOUCH_REPORT_SIZE ≤ e.rxBuffer.length)
    (hfail : ¬ (isValidTouchFrame e.rxBuffer = true ∧
                le16 e.rxBuffer 2 = TOUCH_PAYLOAD_SIZE ∧
                verifyCRC e.rxBuffer = true)) :
    (processStreamData e).rxBuffer = e.rxBuffer.drop 1 ∧
    (processStreamData e).state = .SYNCHRONIZING := by
  obtain ⟨t, ht⟩ := take_two_shape e.rxBuffer 0x04 0x00 h2
  have hid : le16 e.rxBuffer 0 = 4 := by
    rw [ht]
    simp [le16]
  have hdispatch : processStreamData e = processTouchReport e := by
    unfold processStreamData
    rw [if_neg (by simp [hid]), if_neg (by simp [hid]), if_neg (by simp [hid]),
      if_pos ⟨hid, hlen⟩]
  rw [hdispatch]
  unfold processTouchReport
  by_cases hv : isValidTouchFrame e.rxBuffer = true
  · rw [if_neg (by simp [hv])]
    by_cases hp : le16 e.rxBuffer 2 = TOUCH_PAYLOAD_SIZE
    · rw [if_neg (by simp [hp])]
      by_cases hc : verifyCRC e.rxBuffer = true
      · exact absurd ⟨hv, hp, hc⟩ hfail
      · rw [if_pos (by simp at hc; simp [hc])]
        rw [setState_rxBuffer, setState_state, consumeBuffer_eq_drop]
        exact ⟨rfl, rfl⟩
    · rw [if_pos hp]
      rw [setState_rxBuffer, setState_state, consumeBuffer_eq_drop]
      exact ⟨rfl, rfl⟩
  · rw [if_pos (by simp at hv; simp [hv])]
    rw [setState_rxBuffer, setState_state, consumeBuffer_eq_drop]
    exact ⟨rfl, rfl⟩

/-- C2 witness: a 72-byte buffer starting 04 00 whose header pattern fails
at byte 2: one byte is consumed, the remaining 71 bytes stay, and the state
becomes Synchronizing. -/
theorem C2_witness :
    (processStreamData { initialEngine with
        state := .SYNCHRONIZED
        rxBuffer := 0x04 :: 0x00 :: List.replicate 70 9 }).state =
      .SYNCHRONIZING ∧
    (processStreamData { initialEngine with
        state := .SYNCHRONIZED
        rxBuffer := 0x04 :: 0x00 :: List.replicate 70 9 }).rxBuffer =
      0x00 :: List.replicate 70 9 := by
  have h := C2_touchReportFailure { initialEngine with
      state := .SYNCHRONIZED
      rxBuffer := 0x04 :: 0x00 :: List.replicate 70 9 }
    (by decide) (by decide) (by decide)
  exact ⟨h.2, h.1.trans (by decide)⟩


lemma getD_drop_add (l : List Nat) (m n : Nat) :
    (l.drop m).getD n 0 = l.getD (m + n) 0 := by
  simp [List.getD_eq_getElem?_getD, List.getElem?_drop]

lemma foldl_touch_aux (payload : List Nat) (fw fh : Nat) (l : List Nat)
    (acc : List TouchPoint) :
    l.foldl (fun acc touchIndex =>
      if (payload.drop (1 + touchIndex * 10)).getD 0 0 = 0 then acc
      else acc ++ [mkTouchPoint payload touchIndex fw fh]) acc =
    acc ++ (l.filter (fun i => (payload.drop (1 + i * 10)).getD 0 0 != 0)).map
      (fun i => mkTouchPoint payload i fw fh) := by
  induction l generalizing acc with
  | nil => simp
  | cons i l ih =>
    simp only [List.foldl_cons, List.filter_cons]
    by_cases h : (payload.drop (1 + i * 10)).getD 0 0 = 0
    · rw [if_pos h, ih, if_neg (by simp only [bne_iff_ne, ne_eq, not_not]; exact h)]
    · rw [if_neg h, ih, if_pos (by simp only [bne_iff_ne, ne_eq]; exact h),
        List.map_cons]
      simp

lemma parseTouches_eq_filter_map (payload : List Nat) (c fw fh : Nat) :
    parseTouches payload c fw fh =
      ((List.range (min c MAX_TOUCH_CONTACTS)).filter
         (fun i => (payload.drop (1 + i * 10)).getD 0 0 != 0)).map
        (fun i => mkTouchPoint payload i fw fh) := by
  unfold parseTouches
  rw [foldl_touch_aux]
  rfl

/-- C5: a 72-byte frame with correct header pattern, payload-size field 64,
reported count 1 with a nonzero status in slot 0, and a correct trailing
CRC decodes to exactly one touch contact carrying the little-endian slot
fields and the payload scan time; clearTouches() then yields touch count 0.
In general the decoder examines only the first min(reported_count, 6) slots
and skips zero-status slots without occupying an output slot. -/
theorem C5_decodeValidFrame (e : Engine)
    (hlen : e.rxBuffer.length = TOUCH_REPORT_SIZE)
    (hheader : e.rxBuffer.take 4 = [0x04, 0x00, 0x40, 0x00])
    (hpayload : le16 e.rxBuffer 2 = TOUCH_PAYLOAD_SIZE)
    (hcount : e.rxBuffer.getD 65 0 = 1)
    (hstatus : e.rxBuffer.getD 5 0 ≠ 0)
    (hcrc : verifyCRC e.rxBuffer = true) :
    (processTouchReport e).touches =
      [{ id := e.rxBuffer.getD 6 0
         x := le16 e.rxBuffer 7
         y := le16 e.rxBuffer 9
         width := e.rxBuffer.getD 11 0
         height := e.rxBuffer.getD 12 0
         pressure := le16 e.rxBuffer 13
         frameWidth := e.frameWidth
         frameHeight := e.frameHeight
         active := true }] ∧
    (processTouchReport e).scanTime = le16 e.rxBuffer 66 ∧
    getTouchCount (clearTouches (processTouchReport e)) = 0 ∧
    (∀ payload c fw fh, parseTouches payload c fw fh =
       ((List.range (min c MAX_TOUCH_CONTACTS)).filter
          (fun i => (payload.drop (1 + i * 10)).getD 0 0 != 0)).map
         (fun i => mkTouchPoint payload i fw fh)) := by
  have hvalid : isValidTouchFrame e.rxBuffer = true := by
    unfold isValidTouchFrame
    rw [if_neg (by omega)]
    refine decide_eq_true ?_
    unfold markerAt
    rw [List.drop_zero]
    exact hheader
  have hsuccess : processTouchReport e =
      { e with
          scanTime := le16 (e.rxBuffer.drop 4) 62
          touches := parseTouches (e.rxBuffer.drop 4)
            ((e.rxBuffer.drop 4).getD 61 0) e.frameWidth e.frameHeight
          rxBuffer := consumeBuffer e.rxBuffer TOUCH_REPORT_SIZE } := by
    unfold processTouchReport
    rw [if_neg (by simp [hvalid]), if_neg (by simp [hpayload]),
      if_neg (by simp [hcrc])]
  have hc61 : (e.rxBuffer.drop 4).getD 61 0 = 1 := by
    rw [getD_drop_add]
    exact hcount
  refine ⟨?_, ?_, ?_, fun payload c fw fh => parseTouches_eq_filter_map payload c fw fh⟩
  · rw [hsuccess]
    show parseTouches (e.rxBuffer.drop 4)
      ((e.rxBuffer.drop 4).getD 61 0) e.frameWidth e.frameHeight = _
    rw [hc61]
    have hst0 : ¬ ((e.rxBuffer.drop 4).drop (1 + 0 * 10)).getD 0 0 = 0 := by
      rw [List.drop_drop, getD_drop_add]
      simpa using hstatus
    unfold parseTouches
    rw [show min 1 MAX_TOUCH_CONTACTS = 1 from by decide,
      show List.range 1 = [0] from by decide]
    simp only [List.foldl_cons, List.foldl_nil]
    rw [if_neg hst0]
    simp [mkTouchPoint, le16, List.drop_drop, getD_drop_add]
  · rw [hsuccess]
    show le16 (e.rxBuffer.drop 4) 62 = _
    unfold le16
    rw [getD_drop_add, getD_drop_add]
  · rw [hsuccess]
    rfl

set_option maxRecDepth 10000 in
/-- C5 witness: the concrete 72-byte frame testFrame (one active contact in
slot 0, correct CRC 0x5723CD6B) decodes to the single expected contact and
scan time 0x1234, and clearTouches resets the count to 0. -/
theorem C5_witness :
    (processTouchReport { initialEngine with
        state := .SYNCHRONIZED
        rxBuffer := testFrame }).touches =
      [{ id := 2, x := 500, y := 600, width := 7, height := 8,
         pressure := 1000, frameWidth := 1050, frameHeight := 650,
         active := true }] ∧
    (processTouchReport { initialEngine with
        state := .SYNCHRONIZED
        rxBuffer := testFrame }).scanTime = 4660 ∧
    getTouchCount (clearTouches (processTouchReport { initialEngine with
        state := .SYNCHRONIZED
        rxBuffer := testFrame })) = 0 := by
  have h := C5_decodeValidFrame { initialEngine with
      state := .SYNCHRONIZED
      rxBuffer := testFrame }
    (by decide) (by decide) (by decide) (by decide) (by decide) (by decide)
  exact ⟨h.1.trans (by decide), h.2.1.trans (by decide), h.2.2.1⟩


/-- C4 counterexample: after setFrameSize(100, 200), a GET_FRAME_SIZE
response encoding 300 x 400 overwrites the manual override: getFrameWidth()
becomes 300, not 100. -/
theorem C4_counterexample :
    getFrameWidth (setFrameSize { initialEngine with
      state := .SYNCHRONIZED } 100 200) = 100 ∧
    getFrameWidth (loop (setFrameSize { initialEngine with
      state := .SYNCHRONIZED } 100 200) 0
      [0x03, 0x00, 0x2C, 0x01, 0x90, 0x01]) = 300 ∧
    getFrameHeight (loop (setFrameSize { initialEngine with
      state := .SYNCHRONIZED } 100 200) 0
      [0x03, 0x00, 0x2C, 0x01, 0x90, 0x01]) = 400 := by
  exact ⟨by decide, by decide, by decide⟩

/-- C4 amended: setFrameSize(w, h) immediately makes getFrameWidth w and
getFrameHeight h, but any GET_FRAME_SIZE response processed later
unconditionally overwrites both with the sensor-reported little-endian
values at response bytes 2-3 and 4-5: last writer wins, the manual override
is not protected against later sensor responses. -/
theorem C4_lastWriterWins (e : Engine) (w h : Nat) (e2 : Engine) :
    getFrameWidth (setFrameSize e w h) = w ∧
    getFrameHeight (setFrameSize e w h) = h ∧
    getFrameWidth (processGetFrameSize e2) = le16 e2.rxBuffer 2 ∧
    getFrameHeight (processGetFrameSize e2) = le16 e2.rxBuffer 4 :=
  ⟨rfl, rfl, rfl, rfl⟩

lemma synchronize_state_of_noMarker (e : Engine)
    (hnone : ∀ j, ¬ markerAt e.rxBuffer j) :
    (synchronize e).state = e.state := by
  unfold synchronize
  split
  · rfl
  · next hlen =>
    have hff : findFrameHeader e.rxBuffer = (-1 : Int) := by
      unfold findFrameHeader
      rw [if_neg hlen, (findMarker_none_iff e.rxBuffer).mpr hnone]
    simp only [hff]
    norm_num

lemma readStreamData_sync_noMarker (e : Engine) (inc : List Nat)
    (hs : e.state = .SYNCHRONIZING)
    (hnone : ∀ j, ¬ markerAt
       (e.rxBuffer ++ inc.take (RX_BUFFER_SIZE - e.rxBuffer.length)) j) :
    (readStreamData e inc).state = .SYNCHRONIZING := by
  simp only [readStreamData]
  split
  · rw [setState_state]
  · split
    · exact hs
    · rw [hs]
      exact synchronize_state_of_noMarker _ hnone

/-- C6: when the batch read fills the receive buffer to capacity (2048),
the processing pass discards the entire buffer, warns about the overflow,
and forces the state to Synchronizing; and while in Synchronizing, every
pass whose buffered bytes contain no frame marker leaves the state
Synchronizing (so Synchronized is reached only once a marker appears). -/
theorem C6_overflowResync (e : Engine) (incoming : List Nat)
    (hcap : e.rxBuffer.length ≤ RX_BUFFER_SIZE)
    (hover : RX_BUFFER_SIZE ≤ e.rxBuffer.length + incoming.length) :
    (readStreamData e incoming).state = .SYNCHRONIZING ∧
    (readStreamData e incoming).rxBuffer = [] ∧
    Diag.warnRxBufferOverflow ∈ (readStreamData e incoming).events ∧
    (∀ e2 inc, e2.state = .SYNCHRONIZING →
       (∀ j, ¬ markerAt
          (e2.rxBuffer ++ inc.take (RX_BUFFER_SIZE - e2.rxBuffer.length)) j) →
       (readStreamData e2 inc).state = .SYNCHRONIZING) := by
  have hfull : (e.rxBuffer ++
      incoming.take (RX_BUFFER_SIZE - e.rxBuffer.length)).length ≥ RX_BUFFER_SIZE := by
    rw [List.length_append, List.length_take]
    omega
  refine ⟨?_, ?_, ?_, fun e2 inc hs hnone =>
    readStreamData_sync_noMarker e2 inc hs hnone⟩
  · unfold readStreamData
    rw [if_pos hfull, setState_state]
  · unfold readStreamData
    rw [if_pos hfull, setState_rxBuffer]
  · unfold readStreamData
    rw [if_pos hfull]
    exact mem_setState_events _ _ _ (by simp)

/-- C6 witness: a buffer already at capacity overflows on the next pass;
and an empty Synchronizing buffer with no input stays Synchronizing. -/
theorem C6_witness :
    (readStreamData { initialEngine with
        state := .SYNCHRONIZED
        rxBuffer := List.replicate 2048 7 } []).state = .SYNCHRONIZING ∧
    (readStreamData { initialEngine with
        state := .SYNCHRONIZED
        rxBuffer := List.replicate 2048 7 } []).rxBuffer = [] ∧
    (readStreamData { initialEngine with
        state := .SYNCHRONIZING } []).state = .SYNCHRONIZING := by
  have hlen : (List.replicate 2048 (7 : Nat)).length = 2048 := by
    rw [List.length_replicate]
  have h := C6_overflowResync { initialEngine with
      state := .SYNCHRONIZED
      rxBuffer := List.replicate 2048 7 } []
    (by dsimp only; rw [hlen]; decide)
    (by dsimp only; rw [hlen]; decide)
  exact ⟨h.1, h.2.1,
    h.2.2.2 { initialEngine with state := .SYNCHRONIZING } [] rfl
      (fun j => markerAt_nil j)⟩


lemma readStreamData_empty (e : Engine) (hbuf : e.rxBuffer = []) :
    readStreamData e [] = e := by
  obtain ⟨st, buf, tc, sc, fw, fh, ms, ev⟩ := e
  simp only at hbuf
  subst hbuf
  rfl

lemma loop_empty_id (e : Engine) (hs : e.state ≠ .INITIALIZING)
    (hbuf : e.rxBuffer = []) (t : Nat) : loop e t [] = e := by
  unfold loop
  rw [if_neg (fun hc => hs hc.1)]
  exact readStreamData_empty e hbuf

/-- C1 counterexample: from a reachable InitializationFailed state (begin
at time 1, timeout at time 1001) the two transport bytes 6E 22 (the reset
response id) move the engine to Connected without a fresh begin, so
InitializationFailed is not terminal under incoming bytes. -/
theorem C1_counterexample :
    (loop (begin initialEngine 1) 1001 []).state = .INITIALIZATION_FAILED ∧
    (loop (loop (begin initialEngine 1) 1001 []) 1001
      [0x6E, 0x22]).state = .CONNECTED := by
  exact ⟨by decide, by decide⟩

/-- C1 amended: in state InitializationFailed, loop()/poll() calls that
buffer no new transport bytes leave the engine completely unchanged (no
state change, no events); but buffered response bytes are still dispatched,
and a recognized response such as the reset response can leave
InitializationFailed without a fresh begin(). -/
theorem C1_failedStateIdleStays (e : Engine)
    (hs : e.state = .INITIALIZATION_FAILED) (hbuf : e.rxBuffer = [])
    (times : List Nat) :
    times.foldl (fun s t => loop s t []) e = e := by
  induction times with
  | nil => rfl
  | cons t ts ih =>
    rw [List.foldl_cons, loop_empty_id e (by rw [hs]; simp) hbuf t]
    exact ih

/-- C1 witness: three idle polls at times 3, 5, 8 leave a concrete
InitializationFailed engine unchanged. -/
theorem C1_witness :
    [3, 5, 8].foldl (fun s t => loop s t [])
      { initialEngine with state := .INITIALIZATION_FAILED } =
    { initialEngine with state := .INITIALIZATION_FAILED } :=
  C1_failedStateIdleStays { initialEngine with state := .INITIALIZATION_FAILED }
    rfl rfl [3, 5, 8]

lemma wrapSub32_eq (t0 now : Nat) (ht0 : t0 < 2 ^ 32) (hnow : now < 2 ^ 32)
    (hle : t0 ≤ now) : wrapSub32 now t0 = now - t0 := by
  unfold wrapSub32
  rw [Nat.mod_eq_of_lt hnow, Nat.mod_eq_of_lt ht0]
  have h1 : now + (2 ^ 32 - t0) = (now - t0) + 2 ^ 32 := by omega
  rw [h1, Nat.add_mod_right, Nat.mod_eq_of_lt (by omega)]

/-- C8 counterexample: begin() at clock reading 0 records start time 0, so
the timeout guard (which requires a strictly positive recorded start time)
never fires: the first loop() with elapsed time 5000 >= 1000 leaves the
state Initializing instead of transitioning to InitializationFailed. -/
theorem C8_counterexample :
    (begin initialEngine 0).state = .INITIALIZING ∧
    (begin initialEngine 0).initializingStartTimeMs = 0 ∧
    INITIALIZATION_TIMEOUT_MS ≤ wrapSub32 5000 0 ∧
    (loop (begin initialEngine 0) 5000 []).state = .INITIALIZING := by
  exact ⟨by decide, by decide, by decide, by decide⟩

/-- C8 amended: provided begin() recorded a strictly positive clock
reading t0, with no input the first loop() whose reading now satisfies
now - t0 >= 1000 transitions Initializing to InitializationFailed exactly
once (with its warning and state-change notification); earlier calls leave
the engine unchanged, and once in InitializationFailed every further
no-input loop() is the identity, so neither the transition nor its
notification recurs. -/
theorem C8_timeoutFiresOnce (e : Engine) (t0 now : Nat)
    (hs : e.state = .INITIALIZING)
    (hstart : e.initializingStartTimeMs = t0)
    (hpos : 0 < t0) (hbuf : e.rxBuffer = [])
    (ht0 : t0 < 2 ^ 32) (hnow : now < 2 ^ 32) (hmono : t0 ≤ now) :
    (INITIALIZATION_TIMEOUT_MS ≤ now - t0 →
       (loop e now []).state = .INITIALIZATION_FAILED ∧
       (loop e now []).initializingStartTimeMs = 0 ∧
       (loop e now []).rxBuffer = [] ∧
       (loop e now []).events = e.events ++ [.warnInitializationTimeout,
         .stateChange .INITIALIZATION_FAILED .INITIALIZING]) ∧
    (now - t0 < INITIALIZATION_TIMEOUT_MS → loop e now [] = e) ∧
    (∀ e2 t2, e2.state = .INITIALIZATION_FAILED → e2.rxBuffer = [] →
       loop e2 t2 [] = e2) := by
  have hwrap : wrapSub32 now e.initializingStartTimeMs = now - t0 := by
    rw [hstart]
    exact wrapSub32_eq t0 now ht0 hnow hmono
  refine ⟨?_, ?_, ?_⟩
  · intro htime
    have hfired : loop e now [] =
        { setState { e with events := e.events ++ [.warnInitializationTimeout] }
            .INITIALIZATION_FAILED with initializingStartTimeMs := 0 } := by
      unfold loop
      rw [if_pos ⟨hs, by rw [hstart]; exact hpos⟩, hwrap, if_pos htime]
      exact readStreamData_empty _ (by rw [setState_rxBuffer]; exact hbuf)
    rw [hfired]
    have hne : TouchState.INITIALIZATION_FAILED ≠
        ({ e with events := e.events ++ [.warnInitializationTimeout] } : Engine).state := by
      show TouchState.INITIALIZATION_FAILED ≠ e.state
      rw [hs]
      simp
    refine ⟨?_, rfl, ?_, ?_⟩
    · show (setState _ _).state = _
      rw [setState_state]
    · show (setState _ _).rxBuffer = _
      rw [setState_rxBuffer]
      exact hbuf
    · show (setState _ _).events = _
      unfold setState
      rw [if_neg hne]
      show (e.events ++ [.warnInitializationTimeout]) ++
        [.stateChange .INITIALIZATION_FAILED e.state] = _
      rw [hs, List.append_assoc]
      rfl
  · intro htime
    unfold loop
    rw [if_pos ⟨hs, by rw [hstart]; exact hpos⟩, hwrap, if_neg (by omega)]
    exact readStreamData_empty e hbuf
  · intro e2 t2 hs2 hbuf2
    exact loop_empty_id e2 (by rw [hs2]; simp) hbuf2 t2

/-- C8 witness: begin at time 5, loop at time 1005 fires the timeout; a
further loop at time 2000 changes nothing. -/
theorem C8_witness :
    (loop (begin initialEngine 5) 1005 []).state = .INITIALIZATION_FAILED ∧
    loop (loop (begin initialEngine 5) 1005 []) 2000 [] =
      loop (begin initialEngine 5) 1005 [] := by
  have h := C8_timeoutFiresOnce (begin initialEngine 5) 5 1005
    (by decide) (by decide) (by decide) (by decide)
    (by decide) (by decide) (by decide)
  have hfired := h.1 (by decide)
  exact ⟨hfired.1, h.2.2 _ 2000 hfired.1 hfired.2.2.1⟩

lemma processTouchReport_initMs (e : Engine) :
    (processTouchReport e).initializingStartTimeMs =
      e.initializingStartTimeMs := by
  simp only [processTouchReport]
  split
  · rw [setState_initMs]
  split
  · rw [setState_initMs]
  split
  · rw [setState_initMs]
  · rfl

lemma processStreamData_initMs (e : Engine)
    (h0 : e.initializingStartTimeMs = 0) :
    (processStreamData e).initializingStartTimeMs = 0 := by
  simp only [processStreamData]
  split
  · exact h0
  split
  · exact h0
  split
  · exact h0
  split
  · rw [processTouchReport_initMs]; exact h0
  split
  · show (setState _ _).initializingStartTimeMs = 0
    rw [setState_initMs]; exact h0
  split
  · exact h0
  split
  · rfl
  split
  · exact h0
  split
  · exact h0
  split
  · rw [setState_initMs]; exact h0
  · exact h0

lemma processTouchReport_state (e : Engine) :
    (processTouchReport e).state = .SYNCHRONIZING ∨
    (processTouchReport e).state = e.state := by
  simp only [processTouchReport]
  split
  · left; rw [setState_state]
  split
  · left; rw [setState_state]
  split
  · left; rw [setState_state]
  · right; rfl

lemma processStreamData_noFail (e : Engine) :
    (processStreamData e).state = e.state ∨
    (processStreamData e).state ≠ .INITIALIZATION_FAILED := by
  simp only [processStreamData]
  split
  · left; rfl
  split
  · left; rfl
  split
  · left; rfl
  split
  · rcases processTouchReport_state e with h | h
    · right; rw [h]; simp
    · left; exact h
  split
  · right
    show (setState _ _).state ≠ _
    rw [setState_state]; simp
  split
  · left; rfl
  split
  · right
    show (setState _ _).state ≠ _
    rw [setState_state]; simp
  split
  · left; rfl
  split
  · left; rfl
  split
  · right; rw [setState_state]; simp
  · left; rfl

lemma synchronize_initMs (e : Engine) :
    (synchronize e).initializingStartTimeMs = e.initializingStartTimeMs := by
  simp only [synchronize]
  split
  · rfl
  split
  · rw [setState_initMs]
  split
  · rw [setState_initMs]
  · rfl

lemma synchronize_state (e : Engine) :
    (synchronize e).state = e.state ∨ (synchronize e).state = .SYNCHRONIZED := by
  simp only [synchronize]
  split
  · left; rfl
  split
  · right; rw [setState_state]
  split
  · right; rw [setState_state]
  · left; rfl

lemma readStreamData_noFail (e : Engine) (inc : List Nat)
    (h0 : e.initializingStartTimeMs = 0)
    (hnf : e.state ≠ .INITIALIZATION_FAILED) :
    (readStreamData e inc).initializingStartTimeMs = 0 ∧
    (readStreamData e inc).state ≠ .INITIALIZATION_FAILED := by
  simp only [readStreamData]
  split
  · constructor
    · rw [setState_initMs]; exact h0
    · rw [setState_state]; simp
  · split
    · exact ⟨h0, hnf⟩
    · split
      · constructor
        · rw [synchronize_initMs]; exact h0
        · rcases synchronize_state _ with h | h
          · rw [h]; exact hnf
          · rw [h]; simp
      · constructor
        · exact processStreamData_initMs _ h0
        · rcases processStreamData_noFail _ with h | h
          · rw [h]; exact hnf
          · exact h

lemma loop_noFail (e : Engine) (t : Nat) (inc : List Nat)
    (h0 : e.initializingStartTimeMs = 0)
    (hnf : e.state ≠ .INITIALIZATION_FAILED) :
    (loop e t inc).initializingStartTimeMs = 0 ∧
    (loop e t inc).state ≠ .INITIALIZATION_FAILED := by
  unfold loop
  rw [if_neg (by rw [h0]; exact fun hc => by omega)]
  exact readStreamData_noFail e inc h0 hnf

/-- C10: if the clock reading recorded by begin() is 0, the timeout guard
(which requires a strictly positive recorded start time) can never fire:
along any subsequent trace of loop() calls, at any clock readings and with
any incoming bytes, the state never becomes InitializationFailed. -/
theorem C10_zeroClockDisablesTimeout (e0 : Engine)
    (steps : List (Nat × List Nat)) :
    (begin e0 0).initializingStartTimeMs = 0 ∧
    (begin e0 0).state = .INITIALIZING ∧
    (steps.foldl (fun s p => loop s p.1 p.2) (begin e0 0)).state ≠
      .INITIALIZATION_FAILED := by
  have h0 : (begin e0 0).initializingStartTimeMs = 0 := by
    unfold begin
    rw [setState_initMs]
  have hst : (begin e0 0).state = .INITIALIZING := by
    unfold begin
    rw [setState_state]
  refine ⟨h0, hst, ?_⟩
  have main : ∀ (l : List (Nat × List Nat)) (s : Engine),
      s.initializingStartTimeMs = 0 → s.state ≠ .INITIALIZATION_FAILED →
      (l.foldl (fun s p => loop s p.1 p.2) s).state ≠
        .INITIALIZATION_FAILED := by
    intro l
    induction l with
    | nil => intro s _ hnf; exact hnf
    | cons p l ih =>
      intro s h0s hnfs
      rw [List.foldl_cons]
      obtain ⟨ha, hb⟩ := loop_noFail s p.1 p.2 h0s hnfs
      exact ih _ ha hb
  exact main steps _ h0 (by rw [hst]; simp)


lemma removeFirstById_none_iff {CB : Type} (l : List (Int × CB)) (id : Int) :
    removeFirstById l id = none ↔ id ∉ l.map Prod.fst := by
  induction l with
  | nil => simp [removeFirstById]
  | cons p rest ih =>
    unfold removeFirstById
    by_cases h : p.1 = id
    · rw [if_pos h]
      simp [h]
    · rw [if_neg h]
      simp only [Option.map_eq_none', List.map_cons, List.mem_cons]
      rw [ih]
      constructor
      · intro hnm hc
        exact hc.elim (fun he => h he.symm) hnm
      · intro hni hm
        exact hni (Or.inr hm)

lemma removeFirstById_append {CB : Type} (pre post : List (Int × CB))
    (id : Int) (c : CB) (hnot : id ∉ pre.map Prod.fst) :
    removeFirstById (pre ++ (id, c) :: post) id = some (pre ++ post) := by
  induction pre with
  | nil =>
    simp only [List.nil_append]
    unfold removeFirstById
    rw [if_pos rfl]
  | cons q pre ih =>
    simp only [List.cons_append]
    unfold removeFirstById
    simp only [List.map_cons, List.mem_cons] at hnot
    push_neg at hnot
    rw [if_neg (fun he => hnot.1 he.symm), ih hnot.2]
    rfl

lemma removeFirstById_sublist {CB : Type} (l : List (Int × CB)) (id : Int)
    (es : List (Int × CB)) (h : removeFirstById l id = some es) :
    es.Sublist l := by
  induction l generalizing es with
  | nil => simp [removeFirstById] at h
  | cons p rest ih =>
    unfold removeFirstById at h
    split at h
    · simp only [Option.some.injEq] at h
      subst h
      exact List.sublist_cons_self _ _
    · cases hr : removeFirstById rest id with
      | none => rw [hr] at h; simp at h
      | some es2 =>
        rw [hr] at h
        simp only [Option.map_some', Option.some.injEq] at h
        subst h
        exact (ih es2 hr).cons₂ p

/-- C9: listener registration is rejected (id -1) iff the callback is
absent or 4 listeners are registered; a successful registration returns
the current nonnegative nextListenerId (strictly above every id already or
previously issued, hence ids strictly increase and are never reused),
appends the entry, and bumps nextListenerId; removal succeeds iff the id
is currently registered, removes exactly the first matching entry keeping
the remaining entries in their original relative order, and both
operations preserve the registry invariant. -/
theorem C9_listenerRegistry {CB : Type} (r : ListenerRegistry CB)
    (hinv : ListenerInv r) :
    (∀ cb, (addTouchListener r cb).2 = -1 ↔
       (cb = none ∨ MAX_LISTENERS ≤ r.entries.length)) ∧
    (∀ c, ¬ MAX_LISTENERS ≤ r.entries.length →
       (addTouchListener r (some c)).2 = r.nextListenerId ∧
       0 ≤ (addTouchListener r (some c)).2 ∧
       (∀ p ∈ r.entries, p.1 < (addTouchListener r (some c)).2) ∧
       (addTouchListener r (some c)).1.entries =
         r.entries ++ [(r.nextListenerId, c)] ∧
       (addTouchListener r (some c)).1.nextListenerId =
         r.nextListenerId + 1 ∧
       ListenerInv (addTouchListener r (some c)).1) ∧
    (∀ listenerId, (removeTouchListener r listenerId).2 = true ↔
       listenerId ∈ r.entries.map Prod.fst) ∧
    (∀ listenerId pre post c,
       r.entries = pre ++ (listenerId, c) :: post →
       listenerId ∉ pre.map Prod.fst →
       (removeTouchListener r listenerId).1.entries = pre ++ post) ∧
    (∀ listenerId, ListenerInv (removeTouchListener r listenerId).1) := by
  obtain ⟨hpair, hbound, hnn⟩ := hinv
  refine ⟨?_, ?_, ?_, ?_, ?_⟩
  · intro cb
    match cb with
    | none => simp [addTouchListener]
    | some c =>
      simp only [addTouchListener]
      by_cases hc : MAX_LISTENERS ≤ r.entries.length
      · rw [if_pos hc]
        simpa using hc
      · rw [if_neg hc]
        constructor
        · intro hid
          exact absurd hid (by omega)
        · intro hor
          rcases hor with hn | hcap
          · exact absurd hn (by simp)
          · exact absurd hcap hc
  · intro c hc
    have hadd : addTouchListener r (some c) =
        ({ entries := r.entries ++ [(r.nextListenerId, c)]
           nextListenerId := r.nextListenerId + 1 }, r.nextListenerId) := by
      simp only [addTouchListener]
      rw [if_neg hc]
    rw [hadd]
    dsimp only
    refine ⟨rfl, hnn, fun p hp => (hbound p hp).2, rfl, rfl, ?_, ?_,
      by show (0 : Int) ≤ r.nextListenerId + 1; omega⟩
    · show ((r.entries ++ [(r.nextListenerId, c)]).map Prod.fst).Pairwise (· < ·)
      rw [List.map_append]
      rw [List.pairwise_append]
      refine ⟨hpair, by simp, ?_⟩
      intro x hx y hy
      simp only [List.map_cons, List.map_nil, List.mem_singleton] at hy
      subst hy
      obtain ⟨p, hp, hpx⟩ := List.mem_map.mp hx
      rw [← hpx]
      exact (hbound p hp).2
    · intro p hp
      show 0 ≤ p.1 ∧ p.1 < r.nextListenerId + 1
      rcases List.mem_append.mp hp with hin | hnew
      · have := hbound p hin
        constructor
        · exact this.1
        · omega
      · simp only [List.mem_singleton] at hnew
        subst hnew
        refine ⟨hnn, ?_⟩
        show r.nextListenerId < r.nextListenerId + 1
        omega
  · intro listenerId
    unfold removeTouchListener
    cases hr : removeFirstById r.entries listenerId with
    | some es =>
      constructor
      · intro _
        by_contra hmem
        rw [← removeFirstById_none_iff] at hmem
        rw [hmem] at hr
        cases hr
      · intro _
        rfl
    | none =>
      constructor
      · intro hfalse
        cases hfalse
      · intro hmem
        exact absurd hmem ((removeFirstById_none_iff r.entries listenerId).mp hr)
  · intro listenerId pre post c hsplit hnot
    unfold removeTouchListener
    rw [hsplit, removeFirstById_append pre post listenerId c hnot]
  · intro listenerId
    unfold removeTouchListener
    cases hr : removeFirstById r.entries listenerId with
    | some es =>
      have hsub := removeFirstById_sublist r.entries listenerId es hr
      refine ⟨?_, ?_, hnn⟩
      · exact hpair.sublist (hsub.map Prod.fst)
      · intro p hp
        exact hbound p (hsub.subset hp)
    | none => exact ⟨hpair, hbound, hnn⟩

/-- C9 witness: a full registry with ids 0..3 rejects a 5th registration;
removing id 1 succeeds and leaves entries 0, 2, 3 in order; the invariant
holds concretely. -/
theorem C9_witness :
    (addTouchListener
      (ListenerRegistry.mk [((0 : Int), ()), (1, ()), (2, ()), (3, ())] 4)
      (some ())).2 = -1 ∧
    (removeTouchListener
      (ListenerRegistry.mk [((0 : Int), ()), (1, ()), (2, ()), (3, ())] 4)
      1).2 = true ∧
    (removeTouchListener
      (ListenerRegistry.mk [((0 : Int), ()), (1, ()), (2, ()), (3, ())] 4)
      1).1.entries = [((0 : Int), ()), (2, ()), (3, ())] := by
  have hinv : ListenerInv
      (ListenerRegistry.mk [((0 : Int), ()), (1, ()), (2, ()), (3, ())] 4) := by
    refine ⟨?_, ?_, by norm_num⟩
    · simp only [List.map_cons, List.map_nil]
      norm_num
    · intro p hp
      simp only [List.mem_cons, List.not_mem_nil, or_false] at hp
      rcases hp with h | h | h | h <;> (subst h; norm_num)
  have h := C9_listenerRegistry
    (ListenerRegistry.mk [((0 : Int), ()), (1, ()), (2, ()), (3, ())] 4) hinv
  refine ⟨?_, ?_, ?_⟩
  · exact (h.1 (some ())).mpr (Or.inr (by norm_num [MAX_LISTENERS]))
  · exact (h.2.2.1 1).mpr (by norm_num)
  · exact (h.2.2.2.1 1 [((0 : Int), ())] [(2, ()), (3, ())] ()
      rfl (by norm_num))

end DisplaxTouch
